import Mathlib

/-!
# Verification of the reshader installer core

Shallow embedding of the core operations of the `reshader` repository
(`src/lib/lib.rs`, `src/main.rs`) and proofs about them:

* the byte scan that locates the embedded zip archive inside the
  downloaded self-extracting installer (`download_reshade`),
* the symlink-based install/uninstall executor
  (`install_reshade`, `install_reshade_shaders`, `install_preset_for_game`),
* the managed-game list updates (`install_reshade` / `uninstall` in `main.rs`),
* the download wrapper `download_file`,
* version resolution `get_latest_reshade_version`.

Filesystem state is modelled as an association list from paths (component
lists, mirroring `PathBuf::join`) to entries (plain file, directory, or
symlink).  `Path::exists()` follows symlink chains, bounded by the Linux
resolution limit of 40 links; `std::fs::read_link` succeeds exactly on
symlink entries and does not follow them; `std::os::unix::fs::symlink`
fails with `EEXIST` ("File exists") when any entry occupies the link path.
`std::fs::remove_file` removes the directory entry itself (unlink) and
`std::fs::write` is modelled as always succeeding.
Byte streams are `List Nat` (each element a byte value).
-/

namespace Reshader

/-- A filesystem path, as the list of components successively joined by
`PathBuf::join`. -/
abbrev Path := List String

/-- `PathBuf::join` with a single final component. -/
def pathJoin (dir : Path) (name : String) : Path := dir ++ [name]

/-- The error enum of `src/lib/prelude.rs` (`ReShaderError`).  The
`Io`/`Reqwest`/`Git`/`Zip` transparent wrappers around foreign error types
are collapsed to a message string. -/
inductive ReShaderError where
  | FetchLatestVersion (msg : String)
  | Download (url cause : String)
  | Symlink (src : Path) (dst : Path) (msg : String)
  | NoZipFile
  | NoReShade64Dll
  | ReadZipFile
  | ExtractZipFile
  | RepositoryNotFound (name : String)
  | BranchNotFound (branch repo : String)
  | MergeConflict (branch repo : String)
  | Io (msg : String)
  deriving Repr, DecidableEq

/-- A directory entry: a plain file, a real directory, or a symbolic link
storing its target path. -/
inductive FsEntry where
  | file
  | dir
  | symlink (target : Path)
  deriving Repr, DecidableEq

/-- Filesystem state: an association list from paths to entries. -/
abbrev Fs := List (Path × FsEntry)

/-- Look up the entry at a path (`lstat`-like: does not follow symlinks). -/
def Fs.lookup : Fs → Path → Option FsEntry
  | [], _ => none
  | (p, e) :: rest, q => if p = q then some e else Fs.lookup rest q

/-- Remove every entry at a path (models `unlink`). -/
def Fs.remove : Fs → Path → Fs
  | [], _ => []
  | (p, e) :: rest, q => if p = q then Fs.remove rest q else (p, e) :: Fs.remove rest q

/-- Insert or overwrite the entry at a path. -/
def Fs.insert (fs : Fs) (p : Path) (e : FsEntry) : Fs := (p, e) :: fs.remove p

/-- `std::fs::read_link`: `some target` on a symlink entry, `none`
(an error in Rust) on anything else, including a missing path. -/
def Fs.readLink (fs : Fs) (p : Path) : Option Path :=
  match fs.lookup p with
  | some (.symlink t) => some t
  | _ => none

/-- Symlink-following existence check with a resolution-depth bound. -/
def Fs.existsAt (fs : Fs) : Nat → Path → Bool
  | 0, _ => false
  | fuel + 1, p =>
    match fs.lookup p with
    | none => false
    | some .file => true
    | some .dir => true
    | some (.symlink t) => fs.existsAt fuel t

/-- `Path::exists()`: `stat` succeeds, following at most 40 symlinks
(the Linux `ELOOP` limit; an over-long chain makes `stat` fail, hence
`exists()` return `false`). -/
def Fs.pathExists (fs : Fs) (p : Path) : Bool := fs.existsAt 40 p

/-- `std::os::unix::fs::symlink target linkPath`: fails with `EEXIST`
if any entry (even a dangling symlink) occupies `linkPath`, otherwise
creates the link; the target need not exist. -/
def Fs.symlink (fs : Fs) (target linkPath : Path) : Except ReShaderError Fs :=
  match fs.lookup linkPath with
  | some _ => .error (.Io "File exists")
  | none => .ok ((linkPath, FsEntry.symlink target) :: fs)

/-- `std::fs::write` creating/truncating a plain file (modelled as always
succeeding). -/
def Fs.writeFile (fs : Fs) (p : Path) : Fs := fs.insert p .file

/-! ## Archive locator scan (`download_reshade`, `src/lib/lib.rs` 356-369)

```rust
let mut exe = std::io::BufReader::new(exe);
let mut buf = [0u8; 4];
let mut offset = 0;
loop {
    exe.read_exact(&mut buf)?;
    if buf == [0x50, 0x4b, 0x03, 0x04] { break; }
    offset += 1;
    exe.seek(std::io::SeekFrom::Start(offset))?;
}
let mut contents = zip::ZipArchive::new(exe).map_err(|_| ReShaderError::NoZipFile)?;
```

Each iteration reads the 4 bytes at position `offset` (the first
iteration reads at the initial position 0, later ones after a seek to
`offset`), so after a successful `read_exact` the stream position is
`offset + 4`.  `read_exact` at end of file fails with the
`std::io` "failed to fill whole buffer" (`UnexpectedEof`) error, which
`?` propagates as `ReShaderError::Io`; `NoZipFile` is only produced if
`ZipArchive::new` fails after a signature was found. -/

/-- The zip local-file-header signature `0x50 0x4B 0x03 0x04`. -/
def zipSig : List Nat := [0x50, 0x4b, 0x03, 0x04]

/-- `read_exact` of 4 bytes at position `off`: the 4 bytes when available,
`none` (the `UnexpectedEof` failure) when fewer than 4 bytes remain. -/
def read4 (s : List Nat) (off : Nat) : Option (List Nat) :=
  if off + 4 ≤ s.length then some ((s.drop off).take 4) else none

/-- The scan loop.  Returns `(offset, cursor)` on a match: `offset` is the
loop's offset counter (the position of the matched 4 bytes) and `cursor`
the stream position afterwards (`offset + 4`), which is what is handed to
`zip::ZipArchive::new` — the code performs no rewind between the `break`
and the constructor call.  The fuel argument only forces termination; it
is never exhausted when it starts above `s.length`, because `read4` fails
first. -/
def scanLoop (s : List Nat) : Nat → Nat → Except ReShaderError (Nat × Nat)
  | _, 0 => .error (.Io "failed to fill whole buffer")
  | off, fuel + 1 =>
    match read4 s off with
    | none => .error (.Io "failed to fill whole buffer")
    | some b => if b = zipSig then .ok (off, off + 4) else scanLoop s (off + 1) fuel

/-- The archive-locating scan of `download_reshade`, from offset 0. -/
def archiveScan (s : List Nat) : Except ReShaderError (Nat × Nat) :=
  scanLoop s 0 (s.length + 1)

/-- The offset counter reported by the scan (the archive start). -/
def archiveStartOffset (s : List Nat) : Except ReShaderError Nat :=
  (archiveScan s).map Prod.fst

/-- The stream position at which the scan leaves the reader that is handed
to `zip::ZipArchive::new`. -/
def zipReaderPosition (s : List Nat) : Except ReShaderError Nat :=
  (archiveScan s).map Prod.snd

/-! ## Install/uninstall executor (`src/lib/lib.rs`) -/

/-- The variant-specific injector dll name (`download_reshade` /
`install_reshade`). -/
def variantDllName (vanilla : Bool) : String :=
  if vanilla then "ReShade64.Vanilla.dll" else "ReShade64.Addon.dll"

/-- One `if path.exists() { std::fs::remove_file(path)? }` block of
`install_reshade`. -/
def removeIfExists (fs : Fs) (p : Path) : Fs :=
  if fs.pathExists p then fs.remove p else fs

/-- The final `if !ini_path.exists() { std::fs::write(ini_path, DEFAULT_INI)? }`
block of `install_reshade`. -/
def writeIniIfAbsent (fs : Fs) (gamePath : Path) : Fs :=
  if fs.pathExists (pathJoin gamePath "ReShade.ini") then fs
  else fs.writeFile (pathJoin gamePath "ReShade.ini")

/-- `install_reshade` (`src/lib/lib.rs` 395-430): remove pre-existing
`dxgi.dll` and `d3dcompiler_47.dll` (only when `Path::exists()` reports
them), symlink the variant dll as `dxgi.dll` and the shared
`d3dcompiler_47.dll`, then write `ReShade.ini` from the bundled default
if absent. -/
def install_reshade (fs : Fs) (dataDir gamePath : Path) (vanilla : Bool) :
    Except ReShaderError Fs :=
  let fsB := removeIfExists (removeIfExists fs (pathJoin gamePath "dxgi.dll"))
    (pathJoin gamePath "d3dcompiler_47.dll")
  match fsB.symlink (pathJoin dataDir (variantDllName vanilla))
      (pathJoin gamePath "dxgi.dll") with
  | .error e => .error e
  | .ok fs3 =>
    match fs3.symlink (pathJoin dataDir "d3dcompiler_47.dll")
        (pathJoin gamePath "d3dcompiler_47.dll") with
    | .error e => .error e
    | .ok fs4 => .ok (writeIniIfAbsent fs4 gamePath)

/-- `install_reshade_shaders` (`src/lib/lib.rs` 242-258): error if the
target exists and is not a symlink, no-op if it exists and is a symlink,
otherwise create the symlink. -/
def install_reshade_shaders (fs : Fs) (directory gamePath : Path) :
    Except ReShaderError Fs :=
  let target := pathJoin gamePath "reshade-shaders"
  if fs.pathExists target && (fs.readLink target).isNone then
    .error (.Symlink directory target "Directory already exists")
  else if fs.pathExists target && (fs.readLink target).isSome then
    .ok fs
  else
    fs.symlink directory target

/-- `install_preset_for_game` (`src/lib/lib.rs` 506-519): immediately
succeed if either `gshade-presets` or `gshade-shaders` reads as a symlink,
otherwise create both symlinks in order. -/
def install_preset_for_game (fs : Fs) (dataDir gamePath : Path) :
    Except ReShaderError Fs :=
  let targetPreset := pathJoin gamePath "gshade-presets"
  let targetShaders := pathJoin gamePath "gshade-shaders"
  if (fs.readLink targetPreset).isSome || (fs.readLink targetShaders).isSome then
    .ok fs
  else
    match fs.symlink (pathJoin dataDir "reshade-presets") targetPreset with
    | .error e => .error e
    | .ok fs1 => fs1.symlink (pathJoin dataDir "reshade-shaders") targetShaders

/-! ## Managed-game list (`src/main.rs`) -/

/-- The append performed at the end of `install_reshade` in `src/main.rs`
(222-232): return the list unchanged when the exact path is already
present, otherwise push it. -/
def installAppendGamePath (gamePaths : List String) (gamePath : String) : List String :=
  if gamePath ∈ gamePaths then gamePaths else gamePaths ++ [gamePath]

/-- The filtering performed by `uninstall` in `src/main.rs` (293-295):
`retain(|path| path != game_path)`. -/
def uninstallRemoveGamePath (gamePaths : List String) (gamePath : String) : List String :=
  gamePaths.filter (fun p => p ≠ gamePath)

/-! ## `download_file` (`src/lib/lib.rs` 164-181)

The network and the local disk are external; the embedding takes the
outcome of each of the four effects as input.  `send()` succeeds with a
status code for any HTTP response (reqwest does not treat error statuses
as failures and the code never calls `error_for_status`); `bytes()`
yields the body or a transfer error; `File::create` and `io::copy`
succeed or fail with an I/O error message. -/

deriving instance DecidableEq for Except

/-- Outcomes of the four effects performed by `download_file`, in
program order. -/
structure DownloadEnv where
  sendResult : Except String Nat
  bytesResult : Except String (List Nat)
  createResult : Except String Unit
  copyResult : Except String Unit
  deriving Repr, DecidableEq

/-- `download_file`: `send` and `bytes` failures are wrapped as
`Download(url, cause)`; `File::create` and `io::copy` failures propagate
through `?` as `Io`; the response status is never inspected.  Each effect
is attempted exactly once (no retry). -/
def download_file (url : String) (env : DownloadEnv) : Except ReShaderError Unit :=
  match env.sendResult with
  | .error e => .error (.Download url e)
  | .ok _status =>
    match env.bytesResult with
    | .error e => .error (.Download url e)
    | .ok _body =>
      match env.createResult with
      | .error e => .error (.Io e)
      | .ok _ =>
        match env.copyResult with
        | .error e => .error (.Io e)
        | .ok _ => .ok ()

/-! ## Version resolution (`get_latest_reshade_version`, `src/lib/lib.rs` 264-318)

The tag listing returned by the GitHub endpoint is taken as input (a list
of tag names).  `trim_start_matches('v')` strips every leading `v`;
`semver::Version::parse` on the release tags of this endpoint parses a
numeric `major.minor.patch` triple, and `Version::cmp` compares the
triples lexicographically (no pre-release/build parts occur in the
claimed inputs); `sort_by` sorts ascending, `last()` takes the maximum.
`sort_by` is a stable sort; the insertion sort used here agrees with it
on lists with distinct keys. -/

/-- Decimal value of a list of digit characters (0 for an empty list,
digits only in the modelled inputs). -/
def natOfDigits (cs : List Char) : Nat :=
  cs.foldl (fun n c => n * 10 + (c.toNat - 48)) 0

/-- Split a character list at the dot separators. -/
def splitDots : List Char → List (List Char)
  | [] => [[]]
  | c :: cs =>
    let rest := splitDots cs
    if c = '.' then [] :: rest
    else
      match rest with
      | [] => [[c]]
      | r :: rs => (c :: r) :: rs

/-- Parse `"major.minor.patch"` into a numeric triple (the shape of every
tag of the claimed inputs). -/
def parseSemver (s : String) : Nat × Nat × Nat :=
  match (splitDots s.data).map natOfDigits with
  | [a, b, c] => (a, b, c)
  | _ => (0, 0, 0)

/-- `semver::Version` ordering on parsed triples (lexicographic). -/
def semverLe (a b : String) : Bool :=
  let x := parseSemver a
  let y := parseSemver b
  decide (x.1 < y.1 ∨ (x.1 = y.1 ∧ (x.2.1 < y.2.1 ∨ (x.2.1 = y.2.1 ∧ x.2.2 ≤ y.2.2))))

/-- Insert into a sorted list. -/
def insertSorted (le : String → String → Bool) (a : String) : List String → List String
  | [] => [a]
  | b :: bs => if le a b then a :: b :: bs else b :: insertSorted le a bs

/-- Ascending sort (`Vec::sort_by`). -/
def sortByLe (le : String → String → Bool) : List String → List String
  | [] => []
  | a :: as => insertSorted le a (sortByLe le as)

/-- `trim_start_matches('v')`: strip every leading `v`. -/
def stripV (s : String) : String :=
  String.mk (s.data.dropWhile (fun c => c = 'v'))

/-- The templated download URL of `src/lib/lib.rs` 309-317. -/
def reshadeDownloadUrl (version : String) (vanilla : Bool) : String :=
  if vanilla then
    "https://reshade.me/downloads/ReShade_Setup_" ++ version ++ ".exe"
  else
    "https://reshade.me/downloads/ReShade_Setup_" ++ version ++ "_Addon.exe"

/-- `get_latest_reshade_version`: use the explicit version if given,
otherwise strip the `v` prefixes from the fetched tag names, sort by
semver, take the last (failing when the listing is empty), and build the
variant download URL. -/
def get_latest_reshade_version (tags : List String) (version : Option String)
    (vanilla : Bool) : Except ReShaderError String :=
  match version with
  | some v => .ok (reshadeDownloadUrl v vanilla)
  | none =>
    let stripped := tags.map stripV
    let sorted := sortByLe semverLe stripped
    match sorted.getLast? with
    | none => .error (.FetchLatestVersion "no tags available")
    | some latest => .ok (reshadeDownloadUrl (stripV latest) vanilla)

/-! ## Helper lemmas about the filesystem model -/

theorem Fs.lookup_cons (p : Path) (e : FsEntry) (fs : Fs) (q : Path) :
    Fs.lookup ((p, e) :: fs) q = if p = q then some e else fs.lookup q := rfl

theorem Fs.lookup_remove (fs : Fs) (p q : Path) :
    (fs.remove p).lookup q = if p = q then none else fs.lookup q := by
  induction fs with
  | nil => simp [Fs.remove, Fs.lookup]
  | cons pe rest ih =>
    obtain ⟨a, e⟩ := pe
    by_cases hap : a = p <;> by_cases hpq : p = q <;>
      simp_all [Fs.remove, Fs.lookup]

theorem Fs.existsAt_succ (fs : Fs) (fuel : Nat) (p : Path) :
    fs.existsAt (fuel + 1) p =
      match fs.lookup p with
      | none => false
      | some .file => true
      | some .dir => true
      | some (.symlink t) => fs.existsAt fuel t := rfl

theorem pathExists_file {fs : Fs} {p : Path} (h : fs.lookup p = some .file) :
    fs.pathExists p = true := by
  unfold Fs.pathExists
  rw [show (40 : Nat) = 39 + 1 from rfl, Fs.existsAt_succ, h]

theorem pathExists_dir {fs : Fs} {p : Path} (h : fs.lookup p = some .dir) :
    fs.pathExists p = true := by
  unfold Fs.pathExists
  rw [show (40 : Nat) = 39 + 1 from rfl, Fs.existsAt_succ, h]

theorem pathExists_none {fs : Fs} {p : Path} (h : fs.lookup p = none) :
    fs.pathExists p = false := by
  unfold Fs.pathExists
  rw [show (40 : Nat) = 39 + 1 from rfl, Fs.existsAt_succ, h]

theorem pathExists_symlink_file {fs : Fs} {p t : Path}
    (h1 : fs.lookup p = some (.symlink t)) (h2 : fs.lookup t = some .file) :
    fs.pathExists p = true := by
  unfold Fs.pathExists
  rw [show (40 : Nat) = 39 + 1 from rfl, Fs.existsAt_succ, h1]
  show fs.existsAt 39 t = true
  rw [show (39 : Nat) = 38 + 1 from rfl, Fs.existsAt_succ, h2]

theorem pathExists_symlink_none {fs : Fs} {p t : Path}
    (h1 : fs.lookup p = some (.symlink t)) (h2 : fs.lookup t = none) :
    fs.pathExists p = false := by
  unfold Fs.pathExists
  rw [show (40 : Nat) = 39 + 1 from rfl, Fs.existsAt_succ, h1]
  show fs.existsAt 39 t = false
  rw [show (39 : Nat) = 38 + 1 from rfl, Fs.existsAt_succ, h2]

theorem readLink_symlink {fs : Fs} {p t : Path} (h : fs.lookup p = some (.symlink t)) :
    fs.readLink p = some t := by
  unfold Fs.readLink
  rw [h]

theorem readLink_file {fs : Fs} {p : Path} (h : fs.lookup p = some .file) :
    fs.readLink p = none := by
  unfold Fs.readLink
  rw [h]

theorem readLink_dir {fs : Fs} {p : Path} (h : fs.lookup p = some .dir) :
    fs.readLink p = none := by
  unfold Fs.readLink
  rw [h]

theorem readLink_of_lookup_none {fs : Fs} {p : Path} (h : fs.lookup p = none) :
    fs.readLink p = none := by
  unfold Fs.readLink
  rw [h]

theorem symlink_ok {fs : Fs} {t l : Path} (h : fs.lookup l = none) :
    fs.symlink t l = .ok ((l, FsEntry.symlink t) :: fs) := by
  unfold Fs.symlink
  rw [h]

theorem symlink_conflict {fs : Fs} {t l : Path} {e : FsEntry} (h : fs.lookup l = some e) :
    fs.symlink t l = .error (.Io "File exists") := by
  unfold Fs.symlink
  rw [h]

theorem symlink_ok_inv {fs fs3 : Fs} {t l : Path} (h : fs.symlink t l = .ok fs3) :
    fs.lookup l = none ∧ fs3 = (l, FsEntry.symlink t) :: fs := by
  unfold Fs.symlink at h
  cases hl : fs.lookup l with
  | none => rw [hl] at h; exact ⟨rfl, (Except.ok.inj h).symm⟩
  | some e => rw [hl] at h; simp at h

theorem pathJoin_ne {dir : Path} {a b : String} (h : a ≠ b) :
    pathJoin dir a ≠ pathJoin dir b := by
  intro he
  exact h (by simpa using List.append_cancel_left he)

theorem lookup_writeIniIfAbsent (fs : Fs) (gamePath q : Path)
    (hq : pathJoin gamePath "ReShade.ini" ≠ q) :
    (writeIniIfAbsent fs gamePath).lookup q = fs.lookup q := by
  unfold writeIniIfAbsent
  split
  · rfl
  · unfold Fs.writeFile Fs.insert
    rw [Fs.lookup_cons, if_neg hq, Fs.lookup_remove, if_neg hq]

/-! ## C1-C3: the archive-locating scan -/

theorem take4_len {s : List Nat} {k : Nat} (hk : (s.drop k).take 4 = zipSig) :
    k + 4 ≤ s.length := by
  have h4 := congrArg List.length hk
  simp [List.length_take, List.length_drop, zipSig] at h4
  omega

theorem scanLoop_finds_first (s : List Nat) (k : Nat)
    (hk : (s.drop k).take 4 = zipSig)
    (hfirst : ∀ j, j < k → (s.drop j).take 4 ≠ zipSig) :
    ∀ fuel off, off ≤ k → k - off < fuel → scanLoop s off fuel = .ok (k, k + 4) := by
  intro fuel
  induction fuel with
  | zero => intro off _ h2; omega
  | succ fuel ih =>
    intro off h1 h2
    have hread : read4 s off = some ((s.drop off).take 4) := by
      unfold read4
      rw [if_pos]
      have := take4_len hk
      omega
    rcases Nat.eq_or_lt_of_le h1 with heq | hlt
    · subst heq
      simp only [scanLoop, hread]
      rw [if_pos hk]
    · simp only [scanLoop, hread]
      rw [if_neg (hfirst off hlt)]
      exact ih (off + 1) hlt (by omega)

/-- C1: for every byte stream whose first occurrence of `50 4B 03 04` is at
offset `k`, the scan loop of `download_reshade` terminates with its offset
counter equal to `k`: it reports the archive start at the first offset
where the signature occurs. -/
theorem scan_reports_first_signature_offset (s : List Nat) (k : Nat)
    (hk : (s.drop k).take 4 = zipSig)
    (hfirst : ∀ j, j < k → (s.drop j).take 4 ≠ zipSig) :
    archiveStartOffset s = .ok k := by
  have hlen := take4_len hk
  have h := scanLoop_finds_first s k hk hfirst (s.length + 1) 0 (by omega) (by omega)
  unfold archiveStartOffset archiveScan
  rw [h]
  rfl

/-- Witness for C1: in `[9, 50, 4B, 03, 04, 7]` the signature first occurs
at offset 1 and the scan reports 1. -/
theorem scan_reports_first_signature_offset_witness :
    archiveStartOffset [9, 0x50, 0x4b, 0x03, 0x04, 7] = .ok 1 := by
  apply scan_reports_first_signature_offset
  · decide
  · decide

/-- C2: on a stream that never contains the signature, the scan loop of
`download_reshade` hits end-of-file inside `read_exact` and the function
reports the propagated I/O `UnexpectedEof` error, not the dedicated
`ReShaderError::NoZipFile` that its own documentation promises for a
missing byte sequence (`NoZipFile` is only produced when
`zip::ZipArchive::new` fails after a signature was found). -/
theorem scan_eof_gives_io_error_not_nozipfile :
    archiveScan [0, 1, 2, 3, 4, 5] = .error (.Io "failed to fill whole buffer") ∧
    archiveScan [0, 1, 2, 3, 4, 5] ≠ .error .NoZipFile := by
  constructor
  · rfl
  · decide

/-- C3 counterexample: with the signature first occurring at offset 1, the
scan leaves the reader handed to `zip::ZipArchive::new` at position 5
(= k + 4), not at the signature offset 1: the cursor is never rewound. -/
theorem zip_reader_not_rewound_counterexample :
    archiveScan [0, 0x50, 0x4b, 0x03, 0x04] = .ok (1, 5) ∧
    zipReaderPosition [0, 0x50, 0x4b, 0x03, 0x04] ≠
      archiveStartOffset [0, 0x50, 0x4b, 0x03, 0x04] := by
  constructor
  · rfl
  · decide

/-- C3 amended: on a signature match at first offset `k`, the stream handed
to the zip archive constructor is positioned at `k + 4`, immediately after
the 4 matched bytes; no rewind to `k` is performed. -/
theorem zip_reader_position_after_signature (s : List Nat) (k : Nat)
    (hk : (s.drop k).take 4 = zipSig)
    (hfirst : ∀ j, j < k → (s.drop j).take 4 ≠ zipSig) :
    zipReaderPosition s = .ok (k + 4) := by
  have hlen := take4_len hk
  have h := scanLoop_finds_first s k hk hfirst (s.length + 1) 0 (by omega) (by omega)
  unfold zipReaderPosition archiveScan
  rw [h]
  rfl

/-- Witness for the amended C3: signature first at offset 2, reader left at
position 6. -/
theorem zip_reader_position_after_signature_witness :
    zipReaderPosition [9, 9, 0x50, 0x4b, 0x03, 0x04] = .ok 6 := by
  apply zip_reader_position_after_signature _ 2
  · decide
  · decide

/-! ## C4, C10: shader/preset symlink installation -/

/-- C4 counterexample: when `gshade-presets` exists as a real directory
(not a symlink), `install_preset_for_game` does not fail with the
`ReShaderError::Symlink` conflict error the claim demands (it runs into
the `EEXIST` I/O error of the symlink syscall instead). -/
theorem preset_install_no_symlink_error_counterexample :
    ¬ ∃ src dst msg,
      install_preset_for_game [(["g", "gshade-presets"], FsEntry.dir)] ["d"] ["g"] =
        .error (.Symlink src dst msg) := by
  rintro ⟨src, dst, msg, h⟩
  rw [show install_preset_for_game [(["g", "gshade-presets"], FsEntry.dir)] ["d"] ["g"] =
      .error (.Io "File exists") from by decide] at h
  simp at h

/-- C4 amended: `install_reshade_shaders` follows the claimed contract
(`Symlink` conflict error when the target exists and is not a symlink,
no-op success when it is a resolvable symlink, creation otherwise), but
`install_preset_for_game` does not: it is a no-op success when either
target reads as a symlink, and otherwise attempts creation, failing with
the `EEXIST` I/O error — never the `Symlink` error — when a target name
exists as a non-symlink. -/
theorem shader_preset_symlink_contract (fs : Fs) (directory dataDir gamePath : Path) :
    (fs.lookup (pathJoin gamePath "reshade-shaders") = some .dir →
       install_reshade_shaders fs directory gamePath =
         .error (.Symlink directory (pathJoin gamePath "reshade-shaders")
           "Directory already exists")) ∧
    (∀ t, fs.lookup (pathJoin gamePath "reshade-shaders") = some (.symlink t) →
       fs.lookup t = some .file →
       install_reshade_shaders fs directory gamePath = .ok fs) ∧
    (fs.lookup (pathJoin gamePath "reshade-shaders") = none →
       install_reshade_shaders fs directory gamePath =
         .ok ((pathJoin gamePath "reshade-shaders", FsEntry.symlink directory) :: fs)) ∧
    (∀ t, fs.lookup (pathJoin gamePath "gshade-presets") = some (.symlink t) →
       install_preset_for_game fs dataDir gamePath = .ok fs) ∧
    (fs.lookup (pathJoin gamePath "gshade-presets") = some .dir →
       fs.readLink (pathJoin gamePath "gshade-shaders") = none →
       install_preset_for_game fs dataDir gamePath = .error (.Io "File exists")) := by
  refine ⟨fun h => ?_, fun t h1 h2 => ?_, fun h => ?_, fun t h => ?_, fun h1 h2 => ?_⟩
  · simp [install_reshade_shaders, pathExists_dir h, readLink_dir h]
  · simp [install_reshade_shaders, pathExists_symlink_file h1 h2, readLink_symlink h1]
  · simp [install_reshade_shaders, pathExists_none h, readLink_of_lookup_none h,
      symlink_ok h]
  · simp [install_preset_for_game, readLink_symlink h]
  · simp [install_preset_for_game, readLink_dir h1, h2, symlink_conflict h1]

/-- Witness for the amended C4: all five cases at concrete states. -/
theorem shader_preset_symlink_contract_witness :
    install_reshade_shaders [(["g", "reshade-shaders"], FsEntry.dir)] ["d"] ["g"] =
      .error (.Symlink ["d"] ["g", "reshade-shaders"] "Directory already exists") ∧
    install_reshade_shaders
        [(["g", "reshade-shaders"], FsEntry.symlink ["d", "Merged"]),
         (["d", "Merged"], FsEntry.file)] ["d", "Merged"] ["g"] =
      .ok [(["g", "reshade-shaders"], FsEntry.symlink ["d", "Merged"]),
           (["d", "Merged"], FsEntry.file)] ∧
    install_reshade_shaders [] ["d", "Merged"] ["g"] =
      .ok [(["g", "reshade-shaders"], FsEntry.symlink ["d", "Merged"])] ∧
    install_preset_for_game
        [(["g", "gshade-presets"], FsEntry.symlink ["d", "reshade-presets"])] ["d"] ["g"] =
      .ok [(["g", "gshade-presets"], FsEntry.symlink ["d", "reshade-presets"])] ∧
    install_preset_for_game [(["g", "gshade-presets"], FsEntry.dir)] ["d"] ["g"] =
      .error (.Io "File exists") := by
  refine ⟨?_, ?_, ?_, ?_, ?_⟩
  · exact (shader_preset_symlink_contract _ ["d"] ["d"] ["g"]).1 (by decide)
  · exact (shader_preset_symlink_contract _ ["d", "Merged"] ["d", "Merged"] ["g"]).2.1
      ["d", "Merged"] (by decide) (by decide)
  · exact (shader_preset_symlink_contract _ ["d", "Merged"] ["d", "Merged"] ["g"]).2.2.1
      (by decide)
  · exact (shader_preset_symlink_contract _ ["d"] ["d"] ["g"]).2.2.2.1
      ["d", "reshade-presets"] (by decide)
  · exact (shader_preset_symlink_contract _ ["d"] ["d"] ["g"]).2.2.2.2 (by decide) (by decide)

/-- C10: when at least one of the two `gshade` targets reads as a symlink,
`install_preset_for_game` returns success immediately with the state
unchanged — in particular a half-installed pair (exactly one symlink) is
left as-is and the missing symlink is never created. -/
theorem preset_install_noop_when_symlink_present (fs : Fs) (dataDir gamePath : Path)
    (hsym : (fs.readLink (pathJoin gamePath "gshade-presets")).isSome = true ∨
            (fs.readLink (pathJoin gamePath "gshade-shaders")).isSome = true) :
    install_preset_for_game fs dataDir gamePath = .ok fs := by
  unfold install_preset_for_game
  rcases hsym with h | h <;> simp [h]

/-- Witness for C10: only `gshade-presets` is a symlink; the run succeeds
and does not create `gshade-shaders`. -/
theorem preset_install_noop_when_symlink_present_witness :
    install_preset_for_game
        [(["g", "gshade-presets"], FsEntry.symlink ["data", "reshade-presets"])]
        ["data"] ["g"] =
      .ok [(["g", "gshade-presets"], FsEntry.symlink ["data", "reshade-presets"])] :=
  preset_install_noop_when_symlink_present _ ["data"] ["g"] (Or.inl (by decide))

/-! ## C5, C6: injector installation -/

/-- C5 counterexample: with `dxgi.dll` present as a plain file, the claim
demands a symlink-conflict failure leaving the file untouched; instead
`install_reshade` succeeds and the plain file has been replaced by the
injector symlink. -/
theorem install_reshade_plain_file_replaced_counterexample :
    install_reshade [(["g", "dxgi.dll"], FsEntry.file)] ["data"] ["g"] false =
      .ok [(["g", "ReShade.ini"], FsEntry.file),
           (["g", "d3dcompiler_47.dll"], FsEntry.symlink ["data", "d3dcompiler_47.dll"]),
           (["g", "dxgi.dll"], FsEntry.symlink ["data", "ReShade64.Addon.dll"])] := by
  decide

/-- C5 amended: when the loader-name target `dxgi.dll` already exists as a
plain file (and no entry occupies the dependency name, or it is also a
plain file), `install_reshade` succeeds, removing the plain file and
replacing it with the symlink to the variant-specific injector dll (the
hard-reset semantics of spec §4.4). -/
theorem install_reshade_removes_plain_loader_file (fs : Fs) (dataDir gamePath : Path)
    (vanilla : Bool)
    (hdxgi : fs.lookup (pathJoin gamePath "dxgi.dll") = some .file)
    (hd3d : fs.lookup (pathJoin gamePath "d3dcompiler_47.dll") = none ∨
            fs.lookup (pathJoin gamePath "d3dcompiler_47.dll") = some .file) :
    ∃ fs2, install_reshade fs dataDir gamePath vanilla = .ok fs2 ∧
      fs2.lookup (pathJoin gamePath "dxgi.dll") =
        some (.symlink (pathJoin dataDir (variantDllName vanilla))) := by
  have hne1 : pathJoin gamePath "d3dcompiler_47.dll" ≠ pathJoin gamePath "dxgi.dll" :=
    pathJoin_ne (by decide)
  have hne2 : pathJoin gamePath "ReShade.ini" ≠ pathJoin gamePath "dxgi.dll" :=
    pathJoin_ne (by decide)
  have hb1 : fs.pathExists (pathJoin gamePath "dxgi.dll") = true := pathExists_file hdxgi
  have hA : removeIfExists fs (pathJoin gamePath "dxgi.dll") =
      fs.remove (pathJoin gamePath "dxgi.dll") := by
    simp [removeIfExists, hb1]
  have hrm : (fs.remove (pathJoin gamePath "dxgi.dll")).lookup
      (pathJoin gamePath "d3dcompiler_47.dll") =
      fs.lookup (pathJoin gamePath "d3dcompiler_47.dll") := by
    rw [Fs.lookup_remove, if_neg (fun he => hne1 he.symm)]
  simp only [install_reshade, hA]
  rcases hd3d with hnone | hfile
  · have hB : removeIfExists (fs.remove (pathJoin gamePath "dxgi.dll"))
        (pathJoin gamePath "d3dcompiler_47.dll") =
        fs.remove (pathJoin gamePath "dxgi.dll") := by
      simp [removeIfExists, pathExists_none (hrm.trans hnone)]
    have hs1 : (fs.remove (pathJoin gamePath "dxgi.dll")).lookup
        (pathJoin gamePath "dxgi.dll") = none := by
      rw [Fs.lookup_remove, if_pos rfl]
    rw [hB, symlink_ok hs1]
    simp only []
    have hs2 : Fs.lookup
        ((pathJoin gamePath "dxgi.dll",
          FsEntry.symlink (pathJoin dataDir (variantDllName vanilla))) ::
          fs.remove (pathJoin gamePath "dxgi.dll"))
        (pathJoin gamePath "d3dcompiler_47.dll") = none := by
      rw [Fs.lookup_cons, if_neg hne1.symm, hrm, hnone]
    rw [symlink_ok hs2]
    simp only []
    refine ⟨_, rfl, ?_⟩
    rw [lookup_writeIniIfAbsent _ _ _ hne2, Fs.lookup_cons, if_neg hne1,
      Fs.lookup_cons, if_pos rfl]
  · have hB : removeIfExists (fs.remove (pathJoin gamePath "dxgi.dll"))
        (pathJoin gamePath "d3dcompiler_47.dll") =
        (fs.remove (pathJoin gamePath "dxgi.dll")).remove
          (pathJoin gamePath "d3dcompiler_47.dll") := by
      simp [removeIfExists, pathExists_file (hrm.trans hfile)]
    have hs1 : ((fs.remove (pathJoin gamePath "dxgi.dll")).remove
        (pathJoin gamePath "d3dcompiler_47.dll")).lookup
        (pathJoin gamePath "dxgi.dll") = none := by
      rw [Fs.lookup_remove, if_neg hne1, Fs.lookup_remove, if_pos rfl]
    rw [hB, symlink_ok hs1]
    simp only []
    have hs2 : Fs.lookup
        ((pathJoin gamePath "dxgi.dll",
          FsEntry.symlink (pathJoin dataDir (variantDllName vanilla))) ::
          (fs.remove (pathJoin gamePath "dxgi.dll")).remove
            (pathJoin gamePath "d3dcompiler_47.dll"))
        (pathJoin gamePath "d3dcompiler_47.dll") = none := by
      rw [Fs.lookup_cons, if_neg hne1.symm, Fs.lookup_remove, if_pos rfl]
    rw [symlink_ok hs2]
    simp only []
    refine ⟨_, rfl, ?_⟩
    rw [lookup_writeIniIfAbsent _ _ _ hne2, Fs.lookup_cons, if_neg hne1,
      Fs.lookup_cons, if_pos rfl]

/-- Witness for the amended C5. -/
theorem install_reshade_removes_plain_loader_file_witness :
    ∃ fs2, install_reshade [(["g", "dxgi.dll"], FsEntry.file)] ["data"] ["g"] false =
        .ok fs2 ∧
      fs2.lookup ["g", "dxgi.dll"] =
        some (.symlink ["data", "ReShade64.Addon.dll"]) :=
  install_reshade_removes_plain_loader_file _ ["data"] ["g"] false (by decide)
    (Or.inl (by decide))

/-- Any successful `install_reshade` run leaves `dxgi.dll` a symlink to the
variant-specific injector dll and `d3dcompiler_47.dll` a symlink to the
shared dependency copy in the data directory. -/
theorem install_reshade_ok_links (fs fs2 : Fs) (dataDir gamePath : Path) (vanilla : Bool)
    (hrun : install_reshade fs dataDir gamePath vanilla = .ok fs2) :
    fs2.lookup (pathJoin gamePath "dxgi.dll") =
      some (.symlink (pathJoin dataDir (variantDllName vanilla))) ∧
    fs2.lookup (pathJoin gamePath "d3dcompiler_47.dll") =
      some (.symlink (pathJoin dataDir "d3dcompiler_47.dll")) := by
  have hne1 : pathJoin gamePath "d3dcompiler_47.dll" ≠ pathJoin gamePath "dxgi.dll" :=
    pathJoin_ne (by decide)
  have hne2 : pathJoin gamePath "ReShade.ini" ≠ pathJoin gamePath "dxgi.dll" :=
    pathJoin_ne (by decide)
  have hne3 : pathJoin gamePath "ReShade.ini" ≠ pathJoin gamePath "d3dcompiler_47.dll" :=
    pathJoin_ne (by decide)
  simp only [install_reshade] at hrun
  split at hrun
  · simp at hrun
  · rename_i fs3 heq1
    split at hrun
    · simp at hrun
    · rename_i fs4 heq2
      obtain ⟨hl1, rfl⟩ := symlink_ok_inv heq1
      obtain ⟨hl2, rfl⟩ := symlink_ok_inv heq2
      obtain rfl := Except.ok.inj hrun
      constructor
      · rw [lookup_writeIniIfAbsent _ _ _ hne2, Fs.lookup_cons, if_neg hne1,
          Fs.lookup_cons, if_pos rfl]
      · rw [lookup_writeIniIfAbsent _ _ _ hne3, Fs.lookup_cons, if_pos rfl]

/-- C6 counterexample: with an empty data directory, a first
`install_reshade` run succeeds (symlink creation does not require the
target to exist), but the second run fails: `Path::exists()` follows the
now-dangling `dxgi.dll` symlink and reports `false`, so nothing is
removed, and the symlink syscall then fails with `EEXIST`.  The claim
"given that the first run succeeded, the second run also succeeds" is
therefore false as stated. -/
theorem install_reshade_second_run_error_counterexample :
    install_reshade [] ["data"] ["g"] false =
      .ok [(["g", "ReShade.ini"], FsEntry.file),
           (["g", "d3dcompiler_47.dll"], FsEntry.symlink ["data", "d3dcompiler_47.dll"]),
           (["g", "dxgi.dll"], FsEntry.symlink ["data", "ReShade64.Addon.dll"])] ∧
    install_reshade
        [(["g", "ReShade.ini"], FsEntry.file),
         (["g", "d3dcompiler_47.dll"], FsEntry.symlink ["data", "d3dcompiler_47.dll"]),
         (["g", "dxgi.dll"], FsEntry.symlink ["data", "ReShade64.Addon.dll"])]
        ["data"] ["g"] false =
      .error (.Io "File exists") := by
  constructor
  · decide
  · decide

/-- C6 amended: provided the first run succeeded AND the symlink targets
actually exist in the data directory (the variant injector dll and the
shared `d3dcompiler_47.dll`, which the normal `download_reshade` flow
guarantees, and whose paths are distinct from the game's loader path),
the second run with the same variant and game path also succeeds and the
symlink targets of `dxgi.dll` and `d3dcompiler_47.dll` are unchanged. -/
theorem install_reshade_idempotent (fs fs2 : Fs) (dataDir gamePath : Path) (vanilla : Bool)
    (hrun : install_reshade fs dataDir gamePath vanilla = .ok fs2)
    (hv : fs2.lookup (pathJoin dataDir (variantDllName vanilla)) = some .file)
    (hd : fs2.lookup (pathJoin dataDir "d3dcompiler_47.dll") = some .file)
    (hne : pathJoin dataDir "d3dcompiler_47.dll" ≠ pathJoin gamePath "dxgi.dll") :
    ∃ fs3, install_reshade fs2 dataDir gamePath vanilla = .ok fs3 ∧
      fs3.readLink (pathJoin gamePath "dxgi.dll") =
        fs2.readLink (pathJoin gamePath "dxgi.dll") ∧
      fs3.readLink (pathJoin gamePath "d3dcompiler_47.dll") =
        fs2.readLink (pathJoin gamePath "d3dcompiler_47.dll") := by
  obtain ⟨hdx, hd3⟩ := install_reshade_ok_links fs fs2 dataDir gamePath vanilla hrun
  have hne1 : pathJoin gamePath "d3dcompiler_47.dll" ≠ pathJoin gamePath "dxgi.dll" :=
    pathJoin_ne (by decide)
  have hne2 : pathJoin gamePath "ReShade.ini" ≠ pathJoin gamePath "dxgi.dll" :=
    pathJoin_ne (by decide)
  -- step 1: dxgi.dll resolves (its target is a plain file), so it is removed
  have hb1 : fs2.pathExists (pathJoin gamePath "dxgi.dll") = true :=
    pathExists_symlink_file hdx hv
  -- lookups in the state after removing dxgi.dll
  have hA_d3 : (fs2.remove (pathJoin gamePath "dxgi.dll")).lookup
      (pathJoin gamePath "d3dcompiler_47.dll") =
      some (.symlink (pathJoin dataDir "d3dcompiler_47.dll")) := by
    rw [Fs.lookup_remove, if_neg (fun he => hne1 he.symm), hd3]
  have hA_src : (fs2.remove (pathJoin gamePath "dxgi.dll")).lookup
      (pathJoin dataDir "d3dcompiler_47.dll") = some .file := by
    rw [Fs.lookup_remove, if_neg (fun he => hne he.symm), hd]
  -- step 2: d3dcompiler_47.dll also resolves, so it is removed as well
  have hb2 : (fs2.remove (pathJoin gamePath "dxgi.dll")).pathExists
      (pathJoin gamePath "d3dcompiler_47.dll") = true :=
    pathExists_symlink_file hA_d3 hA_src
  -- step 3: both symlink creations succeed
  have hs1 : ((fs2.remove (pathJoin gamePath "dxgi.dll")).remove
      (pathJoin gamePath "d3dcompiler_47.dll")).lookup
      (pathJoin gamePath "dxgi.dll") = none := by
    rw [Fs.lookup_remove, if_neg hne1, Fs.lookup_remove, if_pos rfl]
  have hs2 : Fs.lookup
      ((pathJoin gamePath "dxgi.dll",
        FsEntry.symlink (pathJoin dataDir (variantDllName vanilla))) ::
        (fs2.remove (pathJoin gamePath "dxgi.dll")).remove
          (pathJoin gamePath "d3dcompiler_47.dll"))
      (pathJoin gamePath "d3dcompiler_47.dll") = none := by
    rw [Fs.lookup_cons, if_neg hne1.symm, Fs.lookup_remove, if_pos rfl]
  have hA : removeIfExists fs2 (pathJoin gamePath "dxgi.dll") =
      fs2.remove (pathJoin gamePath "dxgi.dll") := by
    simp [removeIfExists, hb1]
  have hB : removeIfExists (fs2.remove (pathJoin gamePath "dxgi.dll"))
      (pathJoin gamePath "d3dcompiler_47.dll") =
      (fs2.remove (pathJoin gamePath "dxgi.dll")).remove
        (pathJoin gamePath "d3dcompiler_47.dll") := by
    simp [removeIfExists, hb2]
  simp only [install_reshade, hA, hB]
  rw [symlink_ok hs1]
  simp only []
  rw [symlink_ok hs2]
  simp only []
  refine ⟨_, rfl, ?_, ?_⟩
  · rw [readLink_symlink hdx]
    apply readLink_symlink
    rw [lookup_writeIniIfAbsent _ _ _ hne2, Fs.lookup_cons, if_neg hne1,
      Fs.lookup_cons, if_pos rfl]
  · rw [readLink_symlink hd3]
    apply readLink_symlink
    rw [lookup_writeIniIfAbsent _ _ _ (pathJoin_ne (by decide)),
      Fs.lookup_cons, if_pos rfl]

/-- Witness for the amended C6: data directory populated by
`download_reshade`, concrete first-run result, second run succeeds with
unchanged link targets. -/
theorem install_reshade_idempotent_witness :
    ∃ fs3, install_reshade
        [(["g", "ReShade.ini"], FsEntry.file),
         (["g", "d3dcompiler_47.dll"], FsEntry.symlink ["data", "d3dcompiler_47.dll"]),
         (["g", "dxgi.dll"], FsEntry.symlink ["data", "ReShade64.Addon.dll"]),
         (["data", "ReShade64.Addon.dll"], FsEntry.file),
         (["data", "d3dcompiler_47.dll"], FsEntry.file)]
        ["data"] ["g"] false = .ok fs3 ∧
      fs3.readLink ["g", "dxgi.dll"] =
        Fs.readLink
          [(["g", "ReShade.ini"], FsEntry.file),
           (["g", "d3dcompiler_47.dll"], FsEntry.symlink ["data", "d3dcompiler_47.dll"]),
           (["g", "dxgi.dll"], FsEntry.symlink ["data", "ReShade64.Addon.dll"]),
           (["data", "ReShade64.Addon.dll"], FsEntry.file),
           (["data", "d3dcompiler_47.dll"], FsEntry.file)]
          ["g", "dxgi.dll"] ∧
      fs3.readLink ["g", "d3dcompiler_47.dll"] =
        Fs.readLink
          [(["g", "ReShade.ini"], FsEntry.file),
           (["g", "d3dcompiler_47.dll"], FsEntry.symlink ["data", "d3dcompiler_47.dll"]),
           (["g", "dxgi.dll"], FsEntry.symlink ["data", "ReShade64.Addon.dll"]),
           (["data", "ReShade64.Addon.dll"], FsEntry.file),
           (["data", "d3dcompiler_47.dll"], FsEntry.file)]
          ["g", "d3dcompiler_47.dll"] :=
  install_reshade_idempotent
    [(["data", "ReShade64.Addon.dll"], FsEntry.file),
     (["data", "d3dcompiler_47.dll"], FsEntry.file)]
    [(["g", "ReShade.ini"], FsEntry.file),
     (["g", "d3dcompiler_47.dll"], FsEntry.symlink ["data", "d3dcompiler_47.dll"]),
     (["g", "dxgi.dll"], FsEntry.symlink ["data", "ReShade64.Addon.dll"]),
     (["data", "ReShade64.Addon.dll"], FsEntry.file),
     (["data", "d3dcompiler_47.dll"], FsEntry.file)]
    ["data"] ["g"] false (by decide) (by decide) (by decide) (by decide)

/-! ## C7: managed-game list -/

/-- C7: starting from a duplicate-free managed-game list, the append done
by `install_reshade` and the filtering done by `uninstall` both preserve
the no-duplicates invariant, and the append leaves the list unchanged when
the exact path is already present. -/
theorem game_paths_nodup_invariant (gamePaths : List String) (g1 g2 : String)
    (hnd : gamePaths.Nodup) :
    (installAppendGamePath gamePaths g1).Nodup ∧
    (uninstallRemoveGamePath gamePaths g2).Nodup ∧
    (g1 ∈ gamePaths → installAppendGamePath gamePaths g1 = gamePaths) := by
  refine ⟨?_, hnd.filter _, fun hmem => by simp [installAppendGamePath, hmem]⟩
  unfold installAppendGamePath
  split
  · exact hnd
  · next hnotmem =>
    refine hnd.append (List.nodup_singleton g1) ?_
    intro a ha hb
    exact hnotmem ((List.mem_singleton.mp hb) ▸ ha)

/-- Witness for C7. -/
theorem game_paths_nodup_invariant_witness :
    (installAppendGamePath ["/games/a", "/games/b"] "/games/a").Nodup ∧
    (uninstallRemoveGamePath ["/games/a", "/games/b"] "/games/b").Nodup ∧
    ("/games/a" ∈ ["/games/a", "/games/b"] →
      installAppendGamePath ["/games/a", "/games/b"] "/games/a" =
        ["/games/a", "/games/b"]) :=
  game_paths_nodup_invariant ["/games/a", "/games/b"] "/games/a" "/games/b" (by decide)

/-! ## C8: download_file error mapping -/

/-- C8 counterexample: an HTTP error status (404) is not a failure at all
for `download_file` (the body is written and the call succeeds), and an
I/O failure while writing the body surfaces as the transparent `Io` error,
not as `Download{url, cause}`. -/
theorem download_file_status_and_io_counterexample :
    download_file "http://x/y" ⟨.ok 404, .ok [], .ok (), .ok ()⟩ = .ok () ∧
    (¬ ∃ cause, download_file "http://x/y" ⟨.ok 404, .ok [], .ok (), .ok ()⟩ =
      .error (.Download "http://x/y" cause)) ∧
    download_file "http://x/y" ⟨.ok 200, .ok [], .ok (), .error "disk full"⟩ =
      .error (.Io "disk full") := by
  refine ⟨rfl, ?_, rfl⟩
  rintro ⟨cause, h⟩
  rw [show download_file "http://x/y" ⟨.ok 404, .ok [], .ok (), .ok ()⟩ = .ok ()
    from rfl] at h
  simp at h

/-- C8 amended: `download_file` wraps failures of the request send and of
the body download as `Download{url, cause}` and attempts each effect
exactly once; but an HTTP error status is not detected (the response body
is written and the call returns success), and failures of `File::create`
or of writing the body surface as transparent `Io` errors, not as
`Download`. -/
theorem download_file_error_mapping (url : String) (env : DownloadEnv) :
    (∀ e, env.sendResult = .error e →
       download_file url env = .error (.Download url e)) ∧
    (∀ s e, env.sendResult = .ok s → env.bytesResult = .error e →
       download_file url env = .error (.Download url e)) ∧
    (∀ s b e, env.sendResult = .ok s → env.bytesResult = .ok b →
       env.createResult = .error e → download_file url env = .error (.Io e)) ∧
    (∀ s b e, env.sendResult = .ok s → env.bytesResult = .ok b →
       env.createResult = .ok () → env.copyResult = .error e →
       download_file url env = .error (.Io e)) ∧
    (∀ s b, env.sendResult = .ok s → env.bytesResult = .ok b →
       env.createResult = .ok () → env.copyResult = .ok () →
       download_file url env = .ok ()) := by
  refine ⟨fun e h1 => ?_, fun s e h1 h2 => ?_, fun s b e h1 h2 h3 => ?_,
    fun s b e h1 h2 h3 h4 => ?_, fun s b h1 h2 h3 h4 => ?_⟩ <;>
    simp [download_file, *]

/-- Witness for the amended C8: all five outcome shapes. -/
theorem download_file_error_mapping_witness :
    download_file "u" ⟨.error "net down", .ok [], .ok (), .ok ()⟩ =
      .error (.Download "u" "net down") ∧
    download_file "u" ⟨.ok 200, .error "connection reset", .ok (), .ok ()⟩ =
      .error (.Download "u" "connection reset") ∧
    download_file "u" ⟨.ok 200, .ok [1], .error "permission denied", .ok ()⟩ =
      .error (.Io "permission denied") ∧
    download_file "u" ⟨.ok 200, .ok [1], .ok (), .error "disk full"⟩ =
      .error (.Io "disk full") ∧
    download_file "u" ⟨.ok 200, .ok [1], .ok (), .ok ()⟩ = .ok () := by
  refine ⟨?_, ?_, ?_, ?_, ?_⟩
  · exact (download_file_error_mapping "u" _).1 "net down" rfl
  · exact (download_file_error_mapping "u" _).2.1 200 "connection reset" rfl rfl
  · exact (download_file_error_mapping "u" _).2.2.1 200 [1] "permission denied" rfl rfl rfl
  · exact (download_file_error_mapping "u" _).2.2.2.1 200 [1] "disk full" rfl rfl rfl rfl
  · exact (download_file_error_mapping "u" _).2.2.2.2 200 [1] rfl rfl rfl rfl

/-! ## C9: version resolution -/

/-- C9: on the tag listing `["v1.0.0", "v1.2.0", "v1.1.0"]` with no
explicit version and `vanilla = false`, version resolution picks the
semver maximum `1.2.0` (after stripping the leading `v`) and returns the
addon-variant download URL with that version interpolated. -/
theorem latest_version_resolution_concrete :
    get_latest_reshade_version ["v1.0.0", "v1.2.0", "v1.1.0"] none false =
      .ok (reshadeDownloadUrl "1.2.0" false) ∧
    reshadeDownloadUrl "1.2.0" false =
      "https://reshade.me/downloads/ReShade_Setup_1.2.0_Addon.exe" := by
  constructor
  · rfl
  · rfl

end Reshader
